import Mathlib

/-!
# Verification of the endpoint-to-artifact pipeline of `app.py`

Shallow embedding of the core of the repository: the endpoint dictionaries,
the three artifact renderers (`generate_openapi`, `scaffold_fastapi_app`,
`scaffold_client_demo`), the fixed demo catalog `demo_apis`, the JSON
response schema sent to the external generation capability, and the
generate-button handler.

Modelling conventions:
* Python dictionaries holding endpoint data are records of `Option` fields:
  `ep["k"]` on a missing key raises `KeyError`, modelled as `Except.error`;
  `ep.get("k", d)` is `Option.getD`.
* Python `dict` insertion-order semantics (used by `spec["paths"]`) are an
  association list where updating an existing key keeps its position and a
  new key is appended (`dictInsert`); `d.setdefault(k, {})[m] = v` reads the
  current inner dict (default empty), updates it, and writes it back.
* `datetime.utcnow().isoformat()` is nondeterministic input, passed to
  `scaffold_fastapi_app` as an explicit `timestamp` argument.
* `yaml.safe_dump(spec, sort_keys=False)` is modelled by `yamlDump`, a
  deterministic serialization of the fixed spec shape in insertion order.
* Jinja2 `Template.render` on the fixed template of `scaffold_fastapi_app`
  is modelled by direct string concatenation; an undefined `\x7b\x7bexpr\x7d\x7d`
  renders as the empty string while calling a method on an undefined value
  (`ep.method.lower()` with no `method` key) raises, modelled as
  `Except.error`.
-/

/-- An endpoint dictionary as produced by the demo catalog or the external
generation capability.  Every field is optional: the JSON schema sent to the
capability marks no endpoint field as required, so any subset of keys can
reach the renderers. -/
structure EndpointDict where
  path : Option String
  method : Option String
  summary : Option String
  func_name : Option String
deriving DecidableEq, Repr

/-- An operation entry of the OpenAPI `paths` map: `\x7b"summary": s,
"responses": \x7b"200": \x7b"description": "Success"\x7d\x7d\x7d`.  The
`responses` part is the same fixed literal for every endpoint (line 48 of
`app.py`), so only `summary` is data. -/
structure Operation where
  summary : String
deriving DecidableEq, Repr

/-- Inner dict of one path entry: HTTP method (lowercased) to operation. -/
abbrev PathItem := List (String × Operation)

/-- The `spec["paths"]` dict: path to its method dict. -/
abbrev PathsMap := List (String × PathItem)

/-- Python `dict` lookup on an insertion-ordered association list. -/
def alookup (k : String) : List (String × α) → Option α
  | [] => none
  | (k2, v) :: rest => if k2 = k then some v else alookup k rest

/-- Python `dict` assignment `d[k] = v`: an existing key keeps its position
and gets the new value, a fresh key is appended at the end. -/
def dictInsert (k : String) (v : α) : List (String × α) → List (String × α)
  | [] => [(k, v)]
  | (k2, v2) :: rest =>
    if k2 = k then (k2, v) :: rest else (k2, v2) :: dictInsert k v rest

/-- Python `str.lower()` on the ASCII strings handled here: lowercase every
character. -/
def pyLower (s : String) : String := ⟨s.data.map Char.toLower⟩

/-- The operation stored for one endpoint (lines 46-49 of `app.py`):
`ep.get("summary", "")` tolerates a missing summary. -/
def opOf (ep : EndpointDict) : Operation :=
  ⟨ep.summary.getD ""⟩

/-- One iteration of the `for ep in endpoints` loop of `generate_openapi`
(lines 43-49): `path = ep["path"]`, `method = ep["method"].lower()`,
`spec["paths"].setdefault(path, \x7b\x7d)[method] = \x7b...\x7d`.  A missing
`path` or `method` key raises `KeyError` (path is read first). -/
def pathsStep (acc : PathsMap) (ep : EndpointDict) : Except String PathsMap :=
  match ep.path with
  | none => .error "KeyError: \x27path\x27"
  | some p =>
    match ep.method with
    | none => .error "KeyError: \x27method\x27"
    | some m =>
      .ok (dictInsert p (dictInsert (pyLower m) (opOf ep) ((alookup p acc).getD [])) acc)

/-- The whole `for` loop of `generate_openapi`, threading the `paths` dict. -/
def buildPaths (acc : PathsMap) : List EndpointDict → Except String PathsMap
  | [] => .ok acc
  | ep :: rest =>
    match pathsStep acc ep with
    | .error e => .error e
    | .ok acc2 => buildPaths acc2 rest

/-- Serialization of one operation entry in the YAML dump (summary plus the
fixed `responses: \x7b"200": ...\x7d` block). -/
def yamlOp (method : String) (op : Operation) : String :=
  "    " ++ method ++ ":\n      summary: " ++ op.summary ++
  "\n      responses:\n        \x27200\x27:\n          description: Success\n"

/-- Serialization of one `paths` entry. -/
def yamlPathEntry (entry : String × PathItem) : String :=
  "  " ++ entry.1 ++ ":\n" ++ String.join (entry.2.map (fun mv => yamlOp mv.1 mv.2))

/-- Model of `yaml.safe_dump(spec, sort_keys=False)` on the fixed spec shape
built by `generate_openapi`: keys in insertion order (`openapi`, `info`,
`servers`, `paths`), one scalar per line.  A deterministic function of the
spec dict alone. -/
def yamlDump (api_name version desc : String) (paths : PathsMap) : String :=
  "openapi: 3.0.3\ninfo:\n  title: " ++ api_name ++
  "\n  version: " ++ version ++
  "\n  description: " ++ desc ++
  "\nservers:\n- url: \x27\x7b\x7bbaseUrl\x7d\x7d\x27\npaths:\n" ++
  String.join (paths.map yamlPathEntry)

/-- `generate_openapi(api_name, version, desc, endpoints)` (lines 24-50):
builds the spec dict, fills `paths` from the endpoint list, and returns the
YAML serialization.  No timestamp is read anywhere. -/
def generate_openapi (api_name version desc : String)
    (endpoints : List EndpointDict) : Except String String :=
  match buildPaths [] endpoints with
  | .error e => .error e
  | .ok paths => .ok (yamlDump api_name version desc paths)

/-- The status value of the health-check payload in the FastAPI template
(line 71 of `app.py`): the literal `"ok"`. -/
def healthStatus : String := "ok"

/-- The health-check handler body of the template: `return \x7b"status":
"ok", "timestamp": "..."\x7d` with the render-time timestamp spliced in. -/
def healthReturn (timestamp : String) : String :=
  "    return \x7b\"status\": \"" ++ healthStatus ++ "\", \"timestamp\": \"" ++
  timestamp ++ "\"\x7d"

/-- The template text before the health-check return line (lines 64-70):
imports, app construction, and the health route decorator and signature. -/
def fastapiPrologue (title version : String) : String :=
  "\nfrom fastapi import FastAPI\n\napp = FastAPI(title=\"" ++ title ++
  "\", version=\"" ++ version ++ "\")\n\n@app.get(\"/health\")\nasync def health():\n"

/-- The fixed part of the FastAPI template before the endpoint loop
(lines 64-72): imports, app construction, and the health route. -/
def fastapiHeader (title version timestamp : String) : String :=
  fastapiPrologue title version ++ healthReturn timestamp ++ "\n"

/-- One iteration of the template loop (lines 73-77): a route decorator with
the lowercased method, a handler `async def <func_name>():`, and a demo body
echoing the summary. -/
def epBlock (method path func_name summary : String) : String :=
  "\n@app." ++ pyLower method ++ "(\"" ++ path ++ "\")\nasync def " ++
  func_name ++ "():\n    return \x7b\"demo\": \"" ++ summary ++ "\"\x7d\n"

/-- The endpoint loop of the template rendered over the whole list.  Jinja2
renders an undefined `\x7b\x7bep.path\x7d\x7d`, `\x7b\x7bep.func_name\x7d\x7d`
or `\x7b\x7bep.summary\x7d\x7d` as the empty string, but
`\x7b\x7bep.method.lower()\x7d\x7d` with no `method` key raises
`UndefinedError`. -/
def fastapiBlocks : List EndpointDict → Except String (List String)
  | [] => .ok []
  | ep :: rest =>
    match ep.method with
    | none => .error "UndefinedError: \x27method\x27"
    | some m =>
      match fastapiBlocks rest with
      | .error e => .error e
      | .ok bs =>
        .ok (epBlock m (ep.path.getD "") (ep.func_name.getD "") (ep.summary.getD "") :: bs)

/-- `scaffold_fastapi_app(api_name, version, endpoints)` (lines 52-79):
renders the Jinja2 template with the title, version, endpoint list, and the
current UTC timestamp (here an explicit argument). -/
def scaffold_fastapi_app (api_name version : String)
    (endpoints : List EndpointDict) (timestamp : String) : Except String String :=
  match fastapiBlocks endpoints with
  | .error e => .error e
  | .ok bs => .ok (fastapiHeader api_name version timestamp ++ String.join bs ++ "\n")

/-- The handler names emitted by the scaffold, one per endpoint in order
(`\x7b\x7bep.func_name\x7d\x7d`, empty when the key is missing). -/
def handlerNamesOf (endpoints : List EndpointDict) : List String :=
  endpoints.map (fun ep => ep.func_name.getD "")

/-- The first element of the `code` list in `scaffold_client_demo`
(lines 91-93): the triple-quoted header. -/
def clientHeaderText : String :=
  "import requests\nBASE_URL = \"http://localhost:8000\"\n"

/-- The request-call line appended for one endpoint (line 95):
`resp = requests.<method.lower()>(f\x27\x7bBASE_URL\x7d<path>\x27)`.  The
f-string reads `ep["method"]` first, then `ep["path"]`. -/
def callLine (method path : String) : String :=
  "resp = requests." ++ pyLower method ++ "(f\x27\x7bBASE_URL\x7d" ++ path ++ "\x27)"

/-- The print line appended after every call line (line 96). -/
def printLine : String := "print(resp.status_code, resp.text)"

/-- The per-endpoint lines of the client demo, a call line and a print line
per endpoint; `KeyError` on a missing `method` or `path` key. -/
def clientPieces : List EndpointDict → Except String (List String)
  | [] => .ok []
  | ep :: rest =>
    match ep.method with
    | none => .error "KeyError: \x27method\x27"
    | some m =>
      match ep.path with
      | none => .error "KeyError: \x27path\x27"
      | some p =>
        match clientPieces rest with
        | .error e => .error e
        | .ok ls => .ok (callLine m p :: printLine :: ls)

/-- `scaffold_client_demo(endpoints)` (lines 81-97): header line plus two
lines per endpoint, joined with newlines. -/
def scaffold_client_demo (endpoints : List EndpointDict) : Except String String :=
  match clientPieces endpoints with
  | .error e => .error e
  | .ok ls => .ok (String.intercalate "\n" (clientHeaderText :: ls))

/-- `demo_apis` (lines 173-186): the fixed demo catalog, an insertion-ordered
dict from demo key to a curated endpoint list. -/
def demo_apis : List (String × List EndpointDict) :=
  [("Todo API",
    [⟨some "/todos", some "GET", some "List todos", some "list_todos"⟩,
     ⟨some "/todos", some "POST", some "Create todo", some "create_todo"⟩]),
   ("Notes API",
    [⟨some "/notes", some "GET", some "List notes", some "list_notes"⟩,
     ⟨some "/notes", some "POST", some "Create note", some "create_note"⟩]),
   ("Calculator API",
    [⟨some "/add", some "GET", some "Add two numbers", some "add"⟩,
     ⟨some "/multiply", some "GET", some "Multiply two numbers", some "multiply"⟩])]

/-- The demo keys offered by the selectbox (line 197). -/
def demoKeys : List String := demo_apis.map Prod.fst

/-- The top-level JSON object returned by the external generation capability
and decoded by `json.loads` in `generate_api_details_from_prompt`; the
button handler reads every field with `.get` and a default (lines 224-227),
so each field is optional here. -/
structure ApiDetails where
  name : Option String
  version : Option String
  description : Option String
  endpoints : Option (List EndpointDict)

/-- A minimal JSON-schema object: the declared property names and the list
of property names marked `required`. -/
structure JsonSchemaObj where
  properties : List String
  required : List String
deriving DecidableEq, Repr

/-- The `response_schema` items object for one endpoint sent to the external
capability (lines 152-160 of `app.py`): four declared properties and no
`required` list at all. -/
def endpointItemSchema : JsonSchemaObj :=
  ⟨["path", "method", "summary", "func_name"], []⟩

/-- The top level of `response_schema` (lines 144-164): four properties, all
four required. -/
def topLevelSchema : JsonSchemaObj :=
  ⟨["name", "version", "description", "endpoints"],
   ["name", "version", "description", "endpoints"]⟩

/-- The label of the per-endpoint button in the "Try API Now" loop
(line 255): `f"Call \x7bep[\x27method\x27]\x7d \x7bep[\x27path\x27]\x7d"`,
with the method verbatim as stored.  The f-string reads `method` first. -/
def tryApiLabel (ep : EndpointDict) : Except String String :=
  match ep.method with
  | none => .error "KeyError: \x27method\x27"
  | some m =>
    match ep.path with
    | none => .error "KeyError: \x27path\x27"
    | some p => .ok ("Call " ++ m ++ " " ++ p)

deriving instance DecidableEq for Except

/-- What one press of "Generate API from scratch" ends in. -/
inductive Outcome where
  /-- `st.error`/`st.warning` followed by `st.stop()` -- the action is
  terminal and renders nothing (lines 215-216, 230-231, 234-235). -/
  | stopped (msg : String)
  /-- The three artifacts were rendered and shown (lines 238-240). -/
  | rendered (openapi fastapi client : Except String String)
  /-- The final `else` warning when no endpoints exist (line 268). -/
  | warned (msg : String)
deriving DecidableEq

/-- Lines 237-268: render the three artifacts when the endpoint list is
non-empty, warn otherwise. -/
def renderPhase (api_name version desc : String)
    (endpoints : List EndpointDict) (timestamp : String) : Outcome :=
  if endpoints = [] then
    .warned "Please select a demo or enter a custom requirement to generate the API."
  else
    .rendered (generate_openapi api_name version desc endpoints)
      (scaffold_fastapi_app api_name version endpoints timestamp)
      (scaffold_client_demo endpoints)

/-- The "Generate API from scratch" button handler (lines 199-268), with the
external capability passed as a function `ai` and the render-time timestamp
explicit.  Returns the outcome paired with how many calls were made to the
external capability.  For a demo choice the endpoints come from `demo_apis`
(line 200); for the custom choice an empty requirement stops before any
external call (lines 214-216), an exception from the capability stops with
an error (lines 233-235), and an empty generated endpoint list stops with a
warning (lines 229-231). -/
def generateHandler (choice : String) (custom_req : String)
    (ai : String → Except String ApiDetails) (timestamp : String) : Outcome × Nat :=
  if choice ≠ "Custom requirement" then
    (renderPhase choice "0.1.0"
      ("Auto-generated " ++ choice ++ " using Agentic AI API Engineer.")
      ((alookup choice demo_apis).getD []) timestamp, 0)
  else if custom_req = "" then
    (.stopped "Please enter a requirement to generate a custom API.", 0)
  else
    match ai custom_req with
    | .error e => (.stopped ("An error occurred during AI generation: " ++ e), 1)
    | .ok details =>
      if details.endpoints.getD [] = [] then
        (.stopped "AI did not generate any endpoints. Please try a different prompt.", 1)
      else
        (renderPhase (details.name.getD "Custom API") (details.version.getD "0.1.0")
          (details.description.getD "Generated by AI.") (details.endpoints.getD []) timestamp, 1)

/-! ## Property-side definitions

Formalizations of the spec's vocabulary, to be compared with the embedded
source functions. -/

/-- `ep` matches the `paths` cell `(p, m)`: its `path` is `p` and its
lowercased `method` is `m`. -/
def matchesPM (ep : EndpointDict) (p m : String) : Bool :=
  ep.path = some p && ep.method.map pyLower = some m

/-- The last endpoint of the list matching the cell `(p, m)`, the one
"last-write-wins" keeps. -/
def lastMatch (p m : String) : List EndpointDict → Option EndpointDict
  | [] => none
  | ep :: rest =>
    match lastMatch p m rest with
    | some x => some x
    | none => if matchesPM ep p m then some ep else none

/-- Lookup of one operation cell in the nested `paths` dict. -/
def pathsLookup (ps : PathsMap) (p m : String) : Option Operation :=
  (alookup p ps).bind (alookup m)

/-- Every endpoint dict of the list has its `path` and `method` keys. -/
def allKeyed (endpoints : List EndpointDict) : Bool :=
  endpoints.all (fun ep => ep.path.isSome && ep.method.isSome)

/-- `pat` is a prefix of `s` (on character lists). -/
def isPrefixOfCL : List Char → List Char → Bool
  | [], _ => true
  | _ :: _, [] => false
  | a :: as, b :: bs => a = b && isPrefixOfCL as bs

/-- Number of positions of `s` where `pat` starts (occurrences may overlap,
which cannot happen for the patterns counted here). -/
def countOccCL (pat : List Char) : List Char → Nat
  | [] => 0
  | c :: rest => (if isPrefixOfCL pat (c :: rest) then 1 else 0) + countOccCL pat rest

/-- Occurrence count of a pattern string inside a string. -/
def countOccS (s pat : String) : Nat := countOccCL pat.data s.data

/-- A syntactically legal Python identifier: non-empty, first character a
letter or underscore, the rest letters, digits or underscores. -/
def isPyIdent (s : String) : Bool :=
  match s.data with
  | [] => false
  | c :: cs => (c.isAlpha || c = '_') && cs.all (fun d => d.isAlphanum || d = '_')

/-- The "Todo API" entry of the demo catalog. -/
def todoEps : List EndpointDict :=
  [⟨some "/todos", some "GET", some "List todos", some "list_todos"⟩,
   ⟨some "/todos", some "POST", some "Create todo", some "create_todo"⟩]

/-- The OpenAPI artifact component of an outcome, when one was rendered. -/
def openapiPart : Outcome → Option (Except String String)
  | .rendered o _ _ => some o
  | _ => none

/-! ## Dictionary lemmas -/

theorem alookup_dictInsert_self (k : String) (v : α) (d : List (String × α)) :
    alookup k (dictInsert k v d) = some v := by
  induction d with
  | nil => simp [alookup, dictInsert]
  | cons e rest ih =>
    obtain ⟨k2, v2⟩ := e
    by_cases h : k2 = k <;> simp [alookup, dictInsert, h, ih]

theorem alookup_dictInsert_ne (k k2 : String) (v : α) (d : List (String × α))
    (h : k2 ≠ k) : alookup k2 (dictInsert k v d) = alookup k2 d := by
  induction d with
  | nil => simp [alookup, dictInsert, Ne.symm h]
  | cons e rest ih =>
    obtain ⟨k3, v3⟩ := e
    by_cases h3 : k3 = k
    · subst h3
      simp [alookup, dictInsert, Ne.symm h]
    · simp [alookup, dictInsert, h3, ih]

theorem mem_keys_dictInsert (x k : String) (v : α) (d : List (String × α)) :
    x ∈ (dictInsert k v d).map Prod.fst ↔ x ∈ d.map Prod.fst ∨ x = k := by
  induction d with
  | nil => simp [dictInsert, eq_comm]
  | cons e rest ih =>
    obtain ⟨k2, v2⟩ := e
    by_cases h : k2 = k
    · subst h
      simp [dictInsert]
      tauto
    · simp [dictInsert, h, ih]
      tauto

theorem keys_nodup_dictInsert (k : String) (v : α) (d : List (String × α))
    (h : (d.map Prod.fst).Nodup) : ((dictInsert k v d).map Prod.fst).Nodup := by
  induction d with
  | nil => simp [dictInsert]
  | cons e rest ih =>
    obtain ⟨k2, v2⟩ := e
    simp only [List.map_cons, List.nodup_cons] at h
    by_cases hk : k2 = k
    · subst hk
      simpa [dictInsert] using h
    · simp only [dictInsert, hk, if_false, List.map_cons, List.nodup_cons]
      refine ⟨?_, ih h.2⟩
      rw [mem_keys_dictInsert]
      rintro (hm | hm)
      · exact h.1 hm
      · exact hk hm

theorem mem_dictInsert_val (e : String × α) (k : String) (v : α)
    (d : List (String × α)) (h : e ∈ dictInsert k v d) : e.2 = v ∨ e ∈ d := by
  induction d with
  | nil =>
    simp [dictInsert] at h
    simp [h]
  | cons e2 rest ih =>
    obtain ⟨k2, v2⟩ := e2
    by_cases hk : k2 = k
    · subst hk
      rcases (by simpa [dictInsert] using h : e = (k2, v) ∨ e ∈ rest) with h1 | h1
      · left; simp [h1]
      · right; simp [h1]
    · rcases (by simpa [dictInsert, hk] using h : e = (k2, v2) ∨ e ∈ dictInsert k v rest) with h1 | h1
      · right; simp [h1]
      · rcases ih h1 with h2 | h2
        · left; exact h2
        · right; simp [h2]

theorem alookup_mem (k : String) (v : α) (d : List (String × α))
    (h : alookup k d = some v) : (k, v) ∈ d := by
  induction d with
  | nil => simp [alookup] at h
  | cons e rest ih =>
    obtain ⟨k2, v2⟩ := e
    by_cases hk : k2 = k
    · subst hk
      simp [alookup] at h
      simp [h]
    · simp [alookup, hk] at h
      simp [ih h]

/-! ## The paths map of `generate_openapi` (claim C1) -/

/-- Effect of one loop iteration on a single cell of the nested dict:
the written cell gets the new operation, every other cell is unchanged. -/
theorem pathsLookup_step (acc : PathsMap) (p0 m0 : String) (v : Operation)
    (p m : String) :
    pathsLookup (dictInsert p0 (dictInsert m0 v ((alookup p0 acc).getD [])) acc) p m
      = if p0 = p ∧ m0 = m then some v else pathsLookup acc p m := by
  by_cases hp : p0 = p
  · subst hp
    rw [pathsLookup, alookup_dictInsert_self]
    by_cases hm : m0 = m
    · subst hm
      simp [alookup_dictInsert_self]
    · rw [Option.some_bind, alookup_dictInsert_ne _ _ _ _ (Ne.symm hm)]
      simp only [hm, and_false, if_false, pathsLookup]
      cases hacc : alookup p0 acc with
      | none => simp [alookup]
      | some inner => simp
  · rw [pathsLookup, alookup_dictInsert_ne _ _ _ _ (Ne.symm hp)]
    simp [hp, pathsLookup]

/-- The loop computes last-write-wins on every cell: after processing the
whole list, cell `(p, m)` holds the operation of the last matching endpoint,
and cells never written keep their initial value. -/
theorem buildPaths_lookup (eps : List EndpointDict) :
    ∀ acc ps, buildPaths acc eps = .ok ps → ∀ p m,
      pathsLookup ps p m =
        (match lastMatch p m eps with
         | some e => some (opOf e)
         | none => pathsLookup acc p m) := by
  induction eps with
  | nil =>
    intro acc ps h p m
    simp only [buildPaths] at h
    cases h
    simp [lastMatch]
  | cons ep rest ih =>
    intro acc ps h p m
    simp only [buildPaths] at h
    cases hstep : pathsStep acc ep with
    | error e => rw [hstep] at h; cases h
    | ok acc2 =>
      rw [hstep] at h
      have := ih acc2 ps h p m
      rw [this]
      simp only [pathsStep] at hstep
      cases hpath : ep.path with
      | none => rw [hpath] at hstep; cases hstep
      | some p0 =>
        rw [hpath] at hstep
        cases hmeth : ep.method with
        | none => rw [hmeth] at hstep; cases hstep
        | some m0 =>
          rw [hmeth] at hstep
          cases hstep
          cases hlast : lastMatch p m rest with
          | some x => simp only [lastMatch, hlast]
          | none =>
            simp only [lastMatch, hlast]
            rw [pathsLookup_step]
            have hmatch : matchesPM ep p m = true ↔ (p0 = p ∧ pyLower m0 = m) := by
              simp [matchesPM, hpath, hmeth]
            cases hmb : matchesPM ep p m with
            | true =>
              have hc := hmatch.mp hmb
              simp only [if_pos hc]
              simp
            | false =>
              have hcf : ¬(p0 = p ∧ pyLower m0 = m) := fun hc => by
                rw [hmatch.mpr hc] at hmb
                cases hmb
              simp only [if_neg hcf]
              simp

/-- The outer dict and every inner dict keep duplicate-free keys through the
whole loop. -/
theorem buildPaths_nodup (eps : List EndpointDict) :
    ∀ acc ps, (acc.map Prod.fst).Nodup →
      (∀ e ∈ acc, (e.2.map Prod.fst).Nodup) →
      buildPaths acc eps = .ok ps →
      (ps.map Prod.fst).Nodup ∧ ∀ e ∈ ps, (e.2.map Prod.fst).Nodup := by
  induction eps with
  | nil =>
    intro acc ps houter hinner h
    simp only [buildPaths] at h
    cases h
    exact ⟨houter, hinner⟩
  | cons ep rest ih =>
    intro acc ps houter hinner h
    simp only [buildPaths] at h
    cases hstep : pathsStep acc ep with
    | error e => rw [hstep] at h; cases h
    | ok acc2 =>
      rw [hstep] at h
      simp only [pathsStep] at hstep
      cases hpath : ep.path with
      | none => rw [hpath] at hstep; cases hstep
      | some p0 =>
        rw [hpath] at hstep
        cases hmeth : ep.method with
        | none => rw [hmeth] at hstep; cases hstep
        | some m0 =>
          rw [hmeth] at hstep
          cases hstep
          refine ih _ ps (keys_nodup_dictInsert _ _ _ houter) ?_ h
          intro e he
          rcases mem_dictInsert_val e _ _ _ he with h1 | h1
          · rw [h1]
            apply keys_nodup_dictInsert
            cases hacc : alookup p0 acc with
            | none => simp
            | some inner =>
              simpa using hinner _ (alookup_mem _ _ _ hacc)
          · exact hinner e h1

/-- Claim C1: for every `ApiDescriptor` and ordered endpoint list, the Spec
Renderer groups endpoints by path with the (lowercased) method as the inner
key: each cell `(p, m)` of the generated `paths` map holds exactly the
operation of the last endpoint with path `p` and method lowering to `m`
(last-write-wins on duplicate method+path), path keys are distinct so
endpoints sharing a path land in one entry with distinct method keys, and
`generate_openapi` serializes exactly this map. -/
theorem generate_openapi_groups_by_path_last_write_wins
    (eps : List EndpointDict) (ps : PathsMap)
    (h : buildPaths [] eps = .ok ps) :
    (∀ p m, pathsLookup ps p m = (lastMatch p m eps).map opOf)
    ∧ (ps.map Prod.fst).Nodup
    ∧ (∀ e ∈ ps, (e.2.map Prod.fst).Nodup)
    ∧ (∀ api_name version desc,
        generate_openapi api_name version desc eps
          = .ok (yamlDump api_name version desc ps)) := by
  have h1 := buildPaths_lookup eps [] ps h
  have h2 := buildPaths_nodup eps [] ps (by simp) (by simp) h
  refine ⟨?_, h2.1, h2.2, ?_⟩
  · intro p m
    rw [h1 p m]
    cases lastMatch p m eps <;> simp [pathsLookup, alookup]
  · intro api_name version desc
    simp [generate_openapi, h]

/-- An endpoint list with a duplicate (method, path) pair ("GET" and "get"
both lower to "get" on path "/todos") and a second method on the same
path. -/
def epsDupPM : List EndpointDict :=
  [⟨some "/todos", some "GET", some "first", some "a"⟩,
   ⟨some "/todos", some "get", some "second", some "b"⟩,
   ⟨some "/todos", some "POST", some "create", some "c"⟩]

/-- The paths map `generate_openapi` builds for `epsDupPM`: one `/todos`
entry, two method keys, the duplicate collapsed to the later summary. -/
def psDupPM : PathsMap :=
  [("/todos", [("get", ⟨"second"⟩), ("post", ⟨"create"⟩)])]

theorem generate_openapi_groups_by_path_last_write_wins_witness :
    buildPaths [] epsDupPM = .ok psDupPM
    ∧ pathsLookup psDupPM "/todos" "get" = (lastMatch "/todos" "get" epsDupPM).map opOf
    ∧ (psDupPM.map Prod.fst).Nodup :=
  ⟨by decide,
   (generate_openapi_groups_by_path_last_write_wins epsDupPM psDupPM (by decide)).1 "/todos" "get",
   (generate_openapi_groups_by_path_last_write_wins epsDupPM psDupPM (by decide)).2.1⟩

/-! ## Determinism of the Spec Renderer (claim C7) -/

/-- The OpenAPI component of the render phase never depends on the
render-time timestamp. -/
theorem openapiPart_renderPhase (n v d : String) (eps : List EndpointDict)
    (t : String) :
    openapiPart (renderPhase n v d eps t)
      = if eps = [] then none else some (generate_openapi n v d eps) := by
  by_cases h : eps = [] <;> simp [renderPhase, openapiPart, h]

/-- Claim C7: `generate_openapi` is a pure function of the descriptor and
endpoint list -- rendering twice on identical inputs yields byte-identical
output -- and the OpenAPI artifact produced by the button handler is the
same whatever the render-time timestamp is (no timestamp is embedded in the
spec). -/
theorem spec_renderer_deterministic_no_timestamp :
    (∀ api_name version desc eps,
      generate_openapi api_name version desc eps
        = generate_openapi api_name version desc eps)
    ∧ (∀ choice req ai t1 t2,
        openapiPart (generateHandler choice req ai t1).1
          = openapiPart (generateHandler choice req ai t2).1) := by
  refine ⟨fun _ _ _ _ => rfl, ?_⟩
  intro choice req ai t1 t2
  unfold generateHandler
  by_cases hc : choice ≠ "Custom requirement"
  · simp only [if_pos hc, openapiPart_renderPhase]
  · simp only [if_neg hc]
    by_cases hr : req = ""
    · simp [hr]
    · simp only [if_neg hr]
      cases ai req with
      | error e => rfl
      | ok details =>
        by_cases he : details.endpoints.getD [] = []
        · simp [he]
        · simp [he, openapiPart_renderPhase]

/-! ## The "Todo API" end-to-end scenario (claim C2) -/

/-- A fixed sample render-time timestamp for string-level counting. -/
def sampleTs : String := "2025-01-01T00:00:00"

set_option maxRecDepth 8000 in
/-- Claim C2: generating from the demo key "Todo API" produces a paths map
with exactly one key "/todos" carrying exactly two method entries, a server
scaffold with exactly the two handlers `list_todos` and `create_todo` plus
one health route, and a client script with exactly two request-call lines
and one print line per call. -/
theorem todo_demo_end_to_end (ts : String) :
    alookup "Todo API" demo_apis = some todoEps
    ∧ buildPaths [] todoEps =
        .ok [("/todos", [("get", ⟨"List todos"⟩), ("post", ⟨"Create todo"⟩)])]
    ∧ fastapiBlocks todoEps =
        .ok [epBlock "GET" "/todos" "list_todos" "List todos",
             epBlock "POST" "/todos" "create_todo" "Create todo"]
    ∧ handlerNamesOf todoEps = ["list_todos", "create_todo"]
    ∧ scaffold_fastapi_app "Todo API" "0.1.0" todoEps ts =
        .ok (fastapiHeader "Todo API" "0.1.0" ts
          ++ String.join [epBlock "GET" "/todos" "list_todos" "List todos",
               epBlock "POST" "/todos" "create_todo" "Create todo"] ++ "\n")
    ∧ countOccS ((scaffold_fastapi_app "Todo API" "0.1.0" todoEps sampleTs).toOption.getD "")
        "async def " = 3
    ∧ countOccS ((scaffold_fastapi_app "Todo API" "0.1.0" todoEps sampleTs).toOption.getD "")
        "@app.get(\"/health\")" = 1
    ∧ clientPieces todoEps =
        .ok [callLine "GET" "/todos", printLine, callLine "POST" "/todos", printLine]
    ∧ countOccS ((scaffold_client_demo todoEps).toOption.getD "") "resp = requests." = 2
    ∧ countOccS ((scaffold_client_demo todoEps).toOption.getD "") "print(" = 2 :=
  ⟨by decide, by decide, rfl, by decide, rfl, by decide, by decide, rfl, by decide, by decide⟩

/-! ## The button handler on empty input (claim C6) -/

/-- Claim C6: with the custom requirement selected and empty free text, the
handler stops immediately with the invalid-input error, for every external
capability and timestamp, and the external call count is zero. -/
theorem custom_generation_empty_input_no_external_call
    (ai : String → Except String ApiDetails) (ts : String) :
    generateHandler "Custom requirement" "" ai ts
      = (.stopped "Please enter a requirement to generate a custom API.", 0) := by
  rfl

/-! ## The demo catalog (claim C8) -/

/-- The "Notes API" entry of the demo catalog. -/
def notesEps : List EndpointDict :=
  [⟨some "/notes", some "GET", some "List notes", some "list_notes"⟩,
   ⟨some "/notes", some "POST", some "Create note", some "create_note"⟩]

/-- The "Calculator API" entry of the demo catalog. -/
def calcEps : List EndpointDict :=
  [⟨some "/add", some "GET", some "Add two numbers", some "add"⟩,
   ⟨some "/multiply", some "GET", some "Multiply two numbers", some "multiply"⟩]

/-- Claim C8: for every valid demo key the catalog lookup is a pure function
returning the same fixed, curated endpoint list on every call -- the three
entries are the literal lists below, and no randomness or external call is
involved (the lookup is a total function of the key alone). -/
theorem demo_catalog_fixed_and_pure (k : String) (h : k ∈ demoKeys) :
    alookup k demo_apis = alookup k demo_apis
    ∧ (alookup k demo_apis).isSome = true
    ∧ alookup "Todo API" demo_apis = some todoEps
    ∧ alookup "Notes API" demo_apis = some notesEps
    ∧ alookup "Calculator API" demo_apis = some calcEps := by
  refine ⟨rfl, ?_, by decide, by decide, by decide⟩
  simp only [demoKeys, demo_apis] at h
  simp at h
  rcases h with h | h | h <;> subst h <;> decide

theorem demo_catalog_fixed_and_pure_witness :
    "Todo API" ∈ demoKeys ∧ (alookup "Todo API" demo_apis).isSome = true :=
  ⟨by decide, (demo_catalog_fixed_and_pure "Todo API" (by decide)).2.1⟩

/-! ## The server scaffold (claims C3 and C4) -/

theorem strAppend_assoc (a b c : String) : a ++ b ++ c = a ++ (b ++ c) := by
  apply String.ext
  simp [String.data_append, List.append_assoc]

/-- When the template renders, it emits one block per endpoint, in order. -/
theorem fastapiBlocks_ok (eps : List EndpointDict) :
    ∀ bs, fastapiBlocks eps = .ok bs →
      bs = eps.map (fun ep => epBlock (ep.method.getD "") (ep.path.getD "")
        (ep.func_name.getD "") (ep.summary.getD "")) := by
  induction eps with
  | nil =>
    intro bs h
    simp only [fastapiBlocks] at h
    cases h
    simp
  | cons ep rest ih =>
    intro bs h
    simp only [fastapiBlocks] at h
    cases hm : ep.method with
    | none => rw [hm] at h; cases h
    | some m =>
      rw [hm] at h
      cases hrest : fastapiBlocks rest with
      | error e => rw [hrest] at h; cases h
      | ok bs2 =>
        rw [hrest] at h
        cases h
        simp [ih bs2 hrest, hm]

/-- Claim C3 (amended): the Server Scaffold Renderer emits exactly one
handler block per endpoint of the input list, in order; hence exactly one
handler per unique `functionName` whenever the input functionNames are
pairwise distinct (a repeated functionName yields one handler per
occurrence, see the counterexample); and the health-check payload's status
field is the fixed literal "ok" for every timestamp. -/
theorem scaffold_one_handler_per_endpoint_health_ok
    (api_name version ts : String) (eps : List EndpointDict) (bs : List String)
    (h : fastapiBlocks eps = .ok bs) :
    scaffold_fastapi_app api_name version eps ts
      = .ok (fastapiHeader api_name version ts ++ String.join bs ++ "\n")
    ∧ bs = eps.map (fun ep => epBlock (ep.method.getD "") (ep.path.getD "")
        (ep.func_name.getD "") (ep.summary.getD ""))
    ∧ bs.length = eps.length
    ∧ ((handlerNamesOf eps).Nodup →
        ∀ f ∈ handlerNamesOf eps, (handlerNamesOf eps).count f = 1)
    ∧ healthStatus = "ok"
    ∧ fastapiHeader api_name version ts
        = fastapiPrologue api_name version ++ (healthReturn ts ++ "\n") := by
  have hbs := fastapiBlocks_ok eps bs h
  refine ⟨by simp [scaffold_fastapi_app, h], hbs, by simp [hbs], ?_, rfl,
    strAppend_assoc _ _ _⟩
  intro hnd f hf
  exact List.count_eq_one_of_mem hnd hf

theorem scaffold_one_handler_per_endpoint_health_ok_witness :
    (handlerNamesOf todoEps).Nodup
    ∧ (handlerNamesOf todoEps).count "list_todos" = 1 :=
  ⟨by decide,
   (scaffold_one_handler_per_endpoint_health_ok "Todo API" "0.1.0" "T" todoEps
      [epBlock "GET" "/todos" "list_todos" "List todos",
       epBlock "POST" "/todos" "create_todo" "Create todo"]
      (by decide)).2.2.2.1 (by decide) "list_todos" (by decide)⟩

/-- Two endpoints carrying the same `func_name`. -/
def epsDupFn : List EndpointDict :=
  [⟨some "/a", some "GET", some "A", some "dup"⟩,
   ⟨some "/b", some "POST", some "B", some "dup"⟩]

set_option maxRecDepth 8000 in
/-- Counterexample to claim C3 as stated: on an input whose two endpoints
share the unique functionName "dup", the rendered scaffold contains two
handler definitions named `dup`, not exactly one per unique functionName. -/
theorem scaffold_handler_per_functionName_cex :
    countOccS ((scaffold_fastapi_app "X" "1.0" epsDupFn "T").toOption.getD "")
      "async def dup():" = 2
    ∧ countOccS ((scaffold_fastapi_app "X" "1.0" epsDupFn "T").toOption.getD "")
      "async def dup():" ≠ 1 := by
  constructor <;> decide

/-- An endpoint whose `func_name` is not a legal Python identifier. -/
def badFnEp : EndpointDict :=
  ⟨some "/items", some "GET", some "Bad summary", some "1bad name"⟩

/-- An endpoint with no `func_name` key at all. -/
def noFnEp : EndpointDict := ⟨some "/items", some "GET", some "No name", none⟩

set_option maxRecDepth 8000 in
/-- Claim C4, evaluated on the code: the scaffold splices `func_name` into
the handler definition verbatim, with no sanitization and no derivation
from method and path -- an unsafe name like "1bad name" lands in the output
as `async def 1bad name():`, which is not a legal Python identifier, and a
missing `func_name` renders as the empty name `async def ():`. -/
theorem scaffold_emits_unsafe_func_name_verbatim (ts : String) :
    handlerNamesOf [badFnEp] = ["1bad name"]
    ∧ isPyIdent "1bad name" = false
    ∧ scaffold_fastapi_app "Custom API" "0.1.0" [badFnEp] ts
        = .ok (fastapiHeader "Custom API" "0.1.0" ts
            ++ epBlock "GET" "/items" "1bad name" "Bad summary" ++ "\n")
    ∧ countOccS (epBlock "GET" "/items" "1bad name" "Bad summary")
        "async def 1bad name():" = 1
    ∧ handlerNamesOf [noFnEp] = [""]
    ∧ isPyIdent "" = false :=
  ⟨by decide, by decide, rfl, by decide, by decide, by decide⟩

/-! ## The button handler's failure policy (claim C5) -/

/-- Claim C5: the handler is in strict mode, uniformly: for a non-empty
requirement, an external capability returning zero endpoints stops the
action with the zero-endpoints message and an external capability raising
an exception stops it with the error message -- in both failure classes the
outcome is a terminal stop with one external call made, never a substituted
fallback endpoint pair. -/
theorem custom_generation_strict_mode_uniform
    (req : String) (ai : String → Except String ApiDetails) (ts : String)
    (h : req ≠ "") :
    (∀ d, ai req = .ok d → d.endpoints.getD [] = [] →
      generateHandler "Custom requirement" req ai ts
        = (.stopped "AI did not generate any endpoints. Please try a different prompt.", 1))
    ∧ (∀ e, ai req = .error e →
      generateHandler "Custom requirement" req ai ts
        = (.stopped ("An error occurred during AI generation: " ++ e), 1)) := by
  constructor
  · intro d hai hempty
    unfold generateHandler
    rw [if_neg (by decide : ¬("Custom requirement" ≠ "Custom requirement")),
      if_neg h, hai]
    simp [hempty]
  · intro e hai
    unfold generateHandler
    rw [if_neg (by decide : ¬("Custom requirement" ≠ "Custom requirement")),
      if_neg h, hai]

/-- A stub external capability that returns an empty endpoint list. -/
def aiZero : String → Except String ApiDetails :=
  fun _ => .ok ⟨none, none, none, some []⟩

theorem custom_generation_strict_mode_uniform_witness :
    generateHandler "Custom requirement" "make an api" aiZero "T"
      = (.stopped "AI did not generate any endpoints. Please try a different prompt.", 1) :=
  (custom_generation_strict_mode_uniform "make an api" aiZero "T"
    (by decide)).1 ⟨none, none, none, some []⟩ rfl rfl

/-! ## Method normalization (claim C9) -/

/-- An endpoint whose stored method is lowercase "get". -/
def lowMethodEp : EndpointDict := ⟨some "/x", some "get", some "s", some "f"⟩

/-- The same endpoint with the method written "GET". -/
def upMethodEp : EndpointDict := ⟨some "/x", some "GET", some "s", some "f"⟩

/-- Counterexample to claim C9 as stated: the "Try API Now" display (the
button label of line 255) shows the stored method verbatim, not normalized
to uppercase -- for a stored method "get" the label is "Call get /x", which
differs from the uppercased "Call GET /x" the claim requires. -/
theorem method_display_not_uppercased_cex :
    tryApiLabel lowMethodEp = .ok "Call get /x"
    ∧ "Call get /x" ≠ "Call GET /x" :=
  ⟨rfl, by decide⟩

/-- Claim C9 (amended): the method is normalized to lowercase wherever it
appears in generated code -- the OpenAPI paths inner key, the scaffold route
decorator, and the client request call -- and is accepted case-insensitively
there (two methods with the same lowering yield identical artifacts); in the
"Try API Now" display, however, the method appears verbatim as stored, not
normalized to uppercase. -/
theorem method_lowercased_in_code_verbatim_in_display
    (p m : String) (s fn : Option String) (acc : PathsMap) :
    pathsStep acc ⟨some p, some m, s, fn⟩
      = .ok (dictInsert p (dictInsert (pyLower m) ⟨s.getD ""⟩
          ((alookup p acc).getD [])) acc)
    ∧ epBlock m p (fn.getD "") (s.getD "")
        = "\n@app." ++ pyLower m ++ "(\"" ++ p ++ "\")\nasync def " ++ fn.getD ""
          ++ "():\n    return \x7b\"demo\": \"" ++ s.getD "" ++ "\"\x7d\n"
    ∧ callLine m p
        = "resp = requests." ++ pyLower m ++ "(f\x27\x7bBASE_URL\x7d" ++ p ++ "\x27)"
    ∧ tryApiLabel ⟨some p, some m, s, fn⟩ = .ok ("Call " ++ m ++ " " ++ p)
    ∧ (∀ n v d m2, pyLower m = pyLower m2 →
        generate_openapi n v d [⟨some p, some m, s, fn⟩]
          = generate_openapi n v d [⟨some p, some m2, s, fn⟩]
        ∧ (∀ ts, scaffold_fastapi_app n v [⟨some p, some m, s, fn⟩] ts
            = scaffold_fastapi_app n v [⟨some p, some m2, s, fn⟩] ts)
        ∧ scaffold_client_demo [⟨some p, some m, s, fn⟩]
          = scaffold_client_demo [⟨some p, some m2, s, fn⟩]) := by
  refine ⟨rfl, rfl, rfl, rfl, ?_⟩
  intro n v d m2 hm
  refine ⟨?_, ?_, ?_⟩
  · simp [generate_openapi, buildPaths, pathsStep, opOf, hm]
  · intro ts
    simp [scaffold_fastapi_app, fastapiBlocks, epBlock, hm]
  · simp [scaffold_client_demo, clientPieces, callLine, hm]

theorem method_lowercased_in_code_verbatim_in_display_witness :
    tryApiLabel upMethodEp = .ok ("Call " ++ "GET" ++ " " ++ "/x")
    ∧ generate_openapi "N" "1" "d" [upMethodEp]
        = generate_openapi "N" "1" "d" [lowMethodEp] :=
  ⟨(method_lowercased_in_code_verbatim_in_display "/x" "GET" (some "s") (some "f") []).2.2.2.1,
   ((method_lowercased_in_code_verbatim_in_display "/x" "GET" (some "s") (some "f") []).2.2.2.2
      "N" "1" "d" "get" (by decide)).1⟩

/-! ## Partiality of the renderers on the record shape (claim C10) -/

/-- An endpoint list containing an endpoint with no `path` or no `method`
drives the `paths` loop into a `KeyError`. -/
theorem buildPaths_error_of_missing (eps : List EndpointDict) :
    ∀ acc, (∃ ep ∈ eps, ep.path = none ∨ ep.method = none) →
      ∃ msg, buildPaths acc eps = .error msg := by
  induction eps with
  | nil =>
    intro acc h
    rcases h with ⟨ep, hmem, _⟩
    simp at hmem
  | cons e rest ih =>
    intro acc h
    cases hp : e.path with
    | none => exact ⟨"KeyError: \x27path\x27", by simp [buildPaths, pathsStep, hp]⟩
    | some p0 =>
      cases hm : e.method with
      | none => exact ⟨"KeyError: \x27method\x27", by simp [buildPaths, pathsStep, hp, hm]⟩
      | some m0 =>
        rcases h with ⟨ep, hmem, hbad⟩
        rcases List.mem_cons.mp hmem with rfl | hmem2
        · rcases hbad with hb | hb
          · rw [hp] at hb; cases hb
          · rw [hm] at hb; cases hb
        · obtain ⟨msg, hmsg⟩ := ih
            (dictInsert p0 (dictInsert (pyLower m0) (opOf e) ((alookup p0 acc).getD [])) acc)
            ⟨ep, hmem2, hbad⟩
          exact ⟨msg, by simp [buildPaths, pathsStep, hp, hm, hmsg]⟩

/-- The client demo loop raises `KeyError` in the same situation. -/
theorem clientPieces_error_of_missing (eps : List EndpointDict)
    (h : ∃ ep ∈ eps, ep.path = none ∨ ep.method = none) :
    ∃ msg, clientPieces eps = .error msg := by
  induction eps with
  | nil =>
    rcases h with ⟨ep, hmem, _⟩
    simp at hmem
  | cons e rest ih =>
    cases hm : e.method with
    | none => exact ⟨"KeyError: \x27method\x27", by simp [clientPieces, hm]⟩
    | some m0 =>
      cases hp : e.path with
      | none => exact ⟨"KeyError: \x27path\x27", by simp [clientPieces, hm, hp]⟩
      | some p0 =>
        rcases h with ⟨ep, hmem, hbad⟩
        rcases List.mem_cons.mp hmem with rfl | hmem2
        · rcases hbad with hb | hb
          · rw [hp] at hb; cases hb
          · rw [hm] at hb; cases hb
        · obtain ⟨msg, hmsg⟩ := ih ⟨ep, hmem2, hbad⟩
          exact ⟨msg, by simp [clientPieces, hm, hp, hmsg]⟩

/-- With `path` and `method` present on every endpoint, the `paths` loop
always succeeds, whatever the summaries and function names. -/
theorem buildPaths_ok_of_allKeyed (eps : List EndpointDict) :
    ∀ acc, allKeyed eps = true → ∃ ps, buildPaths acc eps = .ok ps := by
  induction eps with
  | nil => exact fun acc _ => ⟨acc, rfl⟩
  | cons e rest ih =>
    intro acc h
    simp only [allKeyed, List.all_cons, Bool.and_eq_true] at h
    obtain ⟨⟨hp, hm⟩, hrest⟩ := h
    cases hpe : e.path with
    | none => rw [hpe] at hp; cases hp
    | some p0 =>
      cases hme : e.method with
      | none => rw [hme] at hm; cases hm
      | some m0 =>
        obtain ⟨ps, hps⟩ := ih
          (dictInsert p0 (dictInsert (pyLower m0) (opOf e) ((alookup p0 acc).getD [])) acc)
          (by simpa [allKeyed] using hrest)
        exact ⟨ps, by simp [buildPaths, pathsStep, hpe, hme, hps]⟩

/-- Claim C10: `generate_openapi` and `scaffold_client_demo` are partial on
the endpoint record shape -- any endpoint missing its `path` or `method` key
makes them fail with a key lookup error -- while a missing `summary` is
tolerated by `generate_openapi` (the empty string is substituted and the
render succeeds); yet the JSON schema sent to the external capability marks
no endpoint field as required, so such records can reach the renderers. -/
theorem renderers_partial_on_missing_keys :
    (∀ api_name version desc eps,
      (∃ ep ∈ eps, ep.path = none ∨ ep.method = none) →
      ∃ msg, generate_openapi api_name version desc eps = .error msg)
    ∧ (∀ eps, (∃ ep ∈ eps, ep.path = none ∨ ep.method = none) →
      ∃ msg, scaffold_client_demo eps = .error msg)
    ∧ (∀ api_name version desc eps, allKeyed eps = true →
      ∃ s, generate_openapi api_name version desc eps = .ok s)
    ∧ (∀ p m fn, opOf ⟨some p, some m, none, fn⟩ = ⟨""⟩)
    ∧ endpointItemSchema.required = []
    ∧ topLevelSchema.required = ["name", "version", "description", "endpoints"] := by
  refine ⟨?_, ?_, ?_, fun _ _ _ => rfl, rfl, rfl⟩
  · intro api_name version desc eps h
    obtain ⟨msg, hmsg⟩ := buildPaths_error_of_missing eps [] h
    exact ⟨msg, by simp [generate_openapi, hmsg]⟩
  · intro eps h
    obtain ⟨msg, hmsg⟩ := clientPieces_error_of_missing eps h
    exact ⟨msg, by simp [scaffold_client_demo, hmsg]⟩
  · intro api_name version desc eps h
    obtain ⟨ps, hps⟩ := buildPaths_ok_of_allKeyed eps [] h
    exact ⟨yamlDump api_name version desc ps, by simp [generate_openapi, hps]⟩

theorem renderers_partial_on_missing_keys_witness :
    (∃ msg, generate_openapi "N" "1" "d" [⟨none, some "GET", none, none⟩] = .error msg)
    ∧ (∃ msg, scaffold_client_demo [⟨some "/a", none, none, none⟩] = .error msg)
    ∧ (∃ s, generate_openapi "N" "1" "d" [⟨some "/a", some "GET", none, none⟩] = .ok s) :=
  ⟨renderers_partial_on_missing_keys.1 "N" "1" "d" [⟨none, some "GET", none, none⟩] (by decide),
   renderers_partial_on_missing_keys.2.1 [⟨some "/a", none, none, none⟩] (by decide),
   renderers_partial_on_missing_keys.2.2.1 "N" "1" "d" [⟨some "/a", some "GET", none, none⟩] (by decide)⟩
